import Mathlib

/-!
Verification of the real-time fan-out subsystem of the collaborative list
application.

The development shallowly embeds the WebSocket connection manager of the
repository.  Two groups of definitions appear below.

The first group (namespace `Src`) embeds the code shipped under
`src/app/websocket/manager.py` and `src/app/websocket/handlers.py`:
a `ConnectionManager` keeping one active socket per user id
(`active_connections`), a room to subscriber-set map (`list_subscribers`)
and a user to room-set map (`user_subscriptions`).  Python dicts are
embedded as functions `String → Option α`; Python sets as duplicate-free
lists with `setAdd` / `setDiscard`.  Socket sends may fail; the failure
pattern is a parameter `fails : WS → Bool` standing for the exceptions
that the source catches around each `send_text`.  Since every send is
wrapped in try/except in the source, the embedded operations are total
functions whose extra output records the messages actually delivered and
the sockets closed.

The second group (namespace `Gen2`) models the later generation of the
manager, whose methods `disconnect_all_for_user` and `broadcast_event`
are invoked from `src/app/services/auth_service.py` and
`src/app/services/shopping_list/base.py` but whose defining module is not
among the provided sources; those definitions are modelled from the
specification (sections 3, 4.1, 4.3 and 4.4) and carry doc comments
saying so.
-/

namespace Src

/-- Opaque handle of one physical WebSocket session, identified by a
numeric id. -/
structure WS where
  wid : Nat
deriving DecidableEq, Repr

/-- Update of a Python dict embedded as a function: `d[k] = v`. -/
def mapSet {α : Type} (k : String) (v : α) (m : String → Option α) :
    String → Option α :=
  fun k2 => if k2 = k then some v else m k2

/-- Deletion from a Python dict embedded as a function: `del d[k]`
(extensionally a no-op when the key is absent, matching the guarded
`if k in d: del d[k]` uses in the source). -/
def mapDel {α : Type} (k : String) (m : String → Option α) :
    String → Option α :=
  fun k2 => if k2 = k then none else m k2

/-- Python `set.add` on a duplicate-free list. -/
def setAdd (x : String) (l : List String) : List String :=
  if x ∈ l then l else x :: l

/-- Python `set.discard` on a list. -/
def setDiscard (x : String) (l : List String) : List String :=
  l.filter (fun y => y != x)

/-- State of the `ConnectionManager` of `src/app/websocket/manager.py`:
`active_connections : user_id -> WebSocket` (one slot per user),
`list_subscribers : list_id -> set of user_ids`,
`user_subscriptions : user_id -> set of list_ids`. -/
@[ext]
structure MState where
  active_connections : String → Option WS
  list_subscribers : String → Option (List String)
  user_subscriptions : String → Option (List String)

/-- The manager state at process start: all three dicts empty. -/
def initState : MState :=
  { active_connections := fun _ => none
    list_subscribers := fun _ => none
    user_subscriptions := fun _ => none }

/-- Embeds `ConnectionManager.connect` (manager.py lines 39-59): if the
user already has an active connection the old socket is closed with code
4001 (reason "New connection opened"), then the new socket is stored and
`user_subscriptions[user_id]` is reset to the empty set.  The second
component lists the sockets closed by the call with their close codes. -/
def connect (user_id : String) (ws : WS) (s : MState) :
    MState × List (WS × Nat) :=
  let closed := match s.active_connections user_id with
    | some old => [(old, 4001)]
    | none => []
  ({ active_connections := mapSet user_id ws s.active_connections
     list_subscribers := s.list_subscribers
     user_subscriptions := mapSet user_id [] s.user_subscriptions },
   closed)

/-- The subscriber-set update that the source inlines both in
`disconnect` and in `unsubscribe_from_list`: if the list has a
subscriber set, discard the user from it, deleting the entry when the
set becomes empty. -/
def dropUserFromList (user_id : String)
    (m : String → Option (List String)) (list_id : String) :
    String → Option (List String) :=
  match m list_id with
  | none => m
  | some subs =>
    let subs2 := setDiscard user_id subs
    if subs2.isEmpty then mapDel list_id m
    else mapSet list_id subs2 m

/-- Embeds `ConnectionManager.disconnect` (manager.py lines 61-79):
removes the user from `active_connections`; then, for each list in
`user_subscriptions[user_id]`, discards the user from that list
subscriber set, deleting the set when it becomes empty; finally removes
the `user_subscriptions` record of the user. -/
def disconnect (user_id : String) (s : MState) : MState :=
  match s.user_subscriptions user_id with
  | none => { s with active_connections := mapDel user_id s.active_connections }
  | some lists =>
    { active_connections := mapDel user_id s.active_connections
      list_subscribers :=
        lists.foldl (dropUserFromList user_id) s.list_subscribers
      user_subscriptions := mapDel user_id s.user_subscriptions }

/-- Embeds `ConnectionManager.subscribe_to_list` (manager.py lines
81-118).  The database membership lookup on `ShoppingListMember` is the
external authorization collaborator and is passed as the boolean
predicate `membership`.  If no membership exists the call returns
`false` before touching any state; otherwise the edge is inserted in
both directions and the call returns `true`. -/
def subscribe_to_list (membership : String → String → Bool)
    (user_id list_id : String) (s : MState) : MState × Bool :=
  if membership user_id list_id then
    let subs := (s.list_subscribers list_id).getD []
    let ls := mapSet list_id (setAdd user_id subs) s.list_subscribers
    let rooms := (s.user_subscriptions user_id).getD []
    let us := mapSet user_id (setAdd list_id rooms) s.user_subscriptions
    ({ s with list_subscribers := ls, user_subscriptions := us }, true)
  else
    (s, false)

/-- Embeds `ConnectionManager.unsubscribe_from_list` (manager.py lines
120-134): discards the user from the subscriber set of the list (deleting the
entry when it becomes empty) and discards the list from the subscription set of the user; absent entries are silent no-ops. -/
def unsubscribe_from_list (user_id list_id : String) (s : MState) :
    MState :=
  { s with
      list_subscribers := dropUserFromList user_id s.list_subscribers list_id
      user_subscriptions :=
        match s.user_subscriptions user_id with
        | none => s.user_subscriptions
        | some rooms =>
          mapSet user_id (setDiscard list_id rooms) s.user_subscriptions }

/-- One Redis pub/sub event as parsed by the listener: the `event` field
plus, for `member_removed`, the `data.user_id` field that the listener
reads. -/
inductive REvent where
  | member_removed (user_id : String)
  | other_event (kind : String)
deriving DecidableEq, Repr

/-- Structured form of the JSON dicts the manager sends: the kicked
notice built in `kick_user_from_list`, the event wrapper built in the
Redis listener, and opaque messages passed in by business services. -/
inductive Msg where
  | kicked (list_id : String) (reason : String)
  | event_wrap (ev : REvent)
  | custom (tag : String)
deriving DecidableEq, Repr

/-- Embeds `ConnectionManager.broadcast_to_list` (manager.py lines
136-159): if the list has no subscriber entry, nothing happens; else the
message is sent to the active connection of every subscriber in order,
each send wrapped in try/except by the source — a failing socket is
collected in `dead_connections` instead of aborting the loop — and after
the full pass every dead user is disconnected.  Returns the new state
together with the (user, message) deliveries that succeeded. -/
def broadcast_to_list (fails : WS → Bool) (list_id : String) (message : Msg)
    (s : MState) : MState × List (String × Msg) :=
  match s.list_subscribers list_id with
  | none => (s, [])
  | some subs =>
    let attempts := subs.filterMap
      (fun u => (s.active_connections u).map (fun w => (u, w)))
    let delivered := (attempts.filter (fun p => !(fails p.2))).map
      (fun p => (p.1, message))
    let dead := (attempts.filter (fun p => fails p.2)).map (fun p => p.1)
    (dead.foldl (fun st u => disconnect u st) s, delivered)

/-- Embeds `ConnectionManager.send_to_user` (manager.py lines 161-181):
returns `false` when the user has no active connection; otherwise sends,
and on a send exception disconnects the user and returns `false`.
The last component lists the successful deliveries. -/
def send_to_user (fails : WS → Bool) (user_id : String) (message : Msg)
    (s : MState) : MState × Bool × List (String × Msg) :=
  match s.active_connections user_id with
  | none => (s, false, [])
  | some w =>
    if fails w then (disconnect user_id s, false, [])
    else (s, true, [(user_id, message)])

/-- Embeds `ConnectionManager.kick_user_from_list` (manager.py lines
183-203): sends the kicked notice (type "kicked", payload carrying
`list_id` and `reason`) to the user via `send_to_user`, then
unsubscribes the user from the list. -/
def kick_user_from_list (fails : WS → Bool) (user_id list_id reason : String)
    (s : MState) : MState × List (String × Msg) :=
  let r := send_to_user fails user_id (Msg.kicked list_id reason) s
  (unsubscribe_from_list user_id list_id r.1, r.2.2)

/-- Embeds the processing of one `pmessage` inside
`ConnectionManager._redis_listener` (manager.py lines 222-266): when the
event is `member_removed` for some user, that user is first kicked from
the list with reason "removed_by_owner"; afterwards the event is
broadcast to the subscribers of the list wrapped as a frame of type "event". -/
def handle_redis_pmessage (fails : WS → Bool) (list_id : String)
    (ev : REvent) (s : MState) : MState × List (String × Msg) :=
  let step1 := match ev with
    | REvent.member_removed uid =>
      kick_user_from_list fails uid list_id "removed_by_owner" s
    | REvent.other_event _ => (s, [])
  let step2 := broadcast_to_list fails list_id (Msg.event_wrap ev) step1.1
  (step2.1, step1.2 ++ step2.2)

/-- Inbound frame as seen by `WebSocketHandler.handle_message`
(handlers.py lines 27-51): either the raw text failed JSON parsing, or a
parsed object carrying an optional "type" tag and the optional
`payload.list_id` string (`data.get("type")`,
`data.get("payload", {}).get("list_id")`). -/
inductive Inbound where
  | bad_json
  | frame (type_tag : Option String) (payload_list_id : Option String)
deriving DecidableEq, Repr

/-- Outbound frames built by `WebSocketHandler`. -/
inductive Outbound where
  | subscribed (list_id : String)
  | unsubscribed (list_id : String)
  | pong
  | error_frame (message : String)
deriving DecidableEq, Repr

/-- Embeds `WebSocketHandler.handle_message` together with its branch
helpers `_handle_subscribe`, `_handle_unsubscribe`, `_handle_ping` and
`_send_error` (handlers.py lines 27-109).  The UUID format validation of
`_handle_subscribe` is the external `UUID(list_id)` parser, passed as the
predicate `is_valid_uuid`; the Python truthiness test `if not list_id`
rejects both an absent and an empty `list_id`.  The returned list holds
the frames sent back to the originating connection; the handler never
closes the socket. -/
def handle_message (membership : String → String → Bool)
    (is_valid_uuid : String → Bool) (user_id : String) (inb : Inbound)
    (s : MState) : MState × List Outbound :=
  match inb with
  | Inbound.bad_json => (s, [Outbound.error_frame "Invalid JSON message"])
  | Inbound.frame t pl =>
    if t = some "subscribe" then
      match pl with
      | none =>
        (s, [Outbound.error_frame "Missing list_id in subscribe payload"])
      | some list_id =>
        if list_id = "" then
          (s, [Outbound.error_frame "Missing list_id in subscribe payload"])
        else if is_valid_uuid list_id then
          let r := subscribe_to_list membership user_id list_id s
          if r.2 then (r.1, [Outbound.subscribed list_id])
          else
            (r.1, [Outbound.error_frame "Cannot subscribe: not a member"])
        else (s, [Outbound.error_frame "Invalid list_id format"])
    else if t = some "unsubscribe" then
      match pl with
      | none =>
        (s, [Outbound.error_frame "Missing list_id in unsubscribe payload"])
      | some list_id =>
        if list_id = "" then
          (s, [Outbound.error_frame "Missing list_id in unsubscribe payload"])
        else
          (unsubscribe_from_list user_id list_id s,
           [Outbound.unsubscribed list_id])
    else if t = some "ping" then (s, [Outbound.pong])
    else (s, [Outbound.error_frame "Unknown message type"])

/-- Classifier for C8: inbound frames that are malformed (JSON parse
failure, missing or empty `list_id` in a subscribe/unsubscribe payload,
`list_id` failing UUID validation) or that carry an unknown type tag. -/
def malformed_or_unknown (is_valid_uuid : String → Bool) (inb : Inbound) :
    Bool :=
  match inb with
  | Inbound.bad_json => true
  | Inbound.frame t pl =>
    if t = some "subscribe" then
      match pl with
      | none => true
      | some l => l == "" || !(is_valid_uuid l)
    else if t = some "unsubscribe" then
      match pl with
      | none => true
      | some l => l == ""
    else if t = some "ping" then false
    else true

/-- Manager state reached by: user A connects (socket 1), subscribes to
list L1, opens a second session (socket 2; the source closes and
replaces socket 1 and resets the user_subscriptions record), then the
remaining session disconnects. -/
def c1_final : MState :=
  disconnect "A"
    ((connect "A" ⟨2⟩
      ((subscribe_to_list (fun _ _ => true) "A" "L1"
        ((connect "A" ⟨1⟩ initState).1)).1)).1)

/-- Manager state with user A connected on socket 1. -/
def stateA : MState := (connect "A" ⟨1⟩ initState).1

/-- Manager state with users A (socket 1) and B (socket 2) connected and
both subscribed to list L1. -/
def stateAB : MState :=
  (subscribe_to_list (fun _ _ => true) "B" "L1"
    ((subscribe_to_list (fun _ _ => true) "A" "L1"
      ((connect "B" ⟨2⟩ stateA).1)).1)).1

end Src

namespace Gen2

/-- Scope of a session in the later-generation design: either the
general-purpose `GLOBAL` scope or dedication to one room. -/
inductive Scope where
  | GLOBAL
  | room (room_id : String)
deriving DecidableEq, Repr

/-- One physical session of the later-generation registry: opaque id,
owning user and scope. -/
structure Conn where
  cid : Nat
  owner : String
  scope : Scope
deriving DecidableEq, Repr

/-- Messages of the later-generation manager: the kicked notice of
`kick_from_room` and the event frames published by business services
through `broadcast_event`. -/
inductive GMsg where
  | kicked (room_id : String) (reason : String)
  | event_msg (event_type : String) (data : Nat)
deriving DecidableEq, Repr

/-- Update of a total map. -/
def fnSet {α : Type} (k : String) (v : α) (m : String → α) : String → α :=
  fun k2 => if k2 = k then v else m k2

/-- State of the later-generation manager: the user to connections
registry, the room to subscriber-set index and the user to room-set
index (spec sections 3 and 4; absent keys are the empty list). -/
@[ext]
structure GState where
  conns : String → List Conn
  room_subs : String → List String
  user_rooms : String → List String

/-- Modelled from the spec: the cascade of section 4.1 performed when a
user drops to zero connections — for every room in the interest set of the user, the user is removed from the subscriber set of that room, then the
subscription record of the user is removed. -/
def cascade_edges (user_id : String) (s : GState) : GState :=
  { conns := s.conns
    room_subs := (s.user_rooms user_id).foldl
      (fun m room_id =>
        fnSet room_id ((m room_id).filter (fun u => u != user_id)) m)
      s.room_subs
    user_rooms := fnSet user_id [] s.user_rooms }

/-- Modelled from the spec: `disconnect_all(user, reason)` of section
4.4, named `disconnect_all_for_user` at its call site
(src/app/services/auth_service.py line 355) — the defining module is not
among the provided sources.  Closes every connection owned by the user
across all scopes (per-socket close failures are swallowed and the
registry entry is removed regardless, section 7), then, the user now
being at zero connections, cascades removal of all subscription edges
(section 3).  The closed connections are returned so the caller can
await their completion. -/
def disconnect_all_for_user (user_id : String) (s : GState) :
    GState × List Conn :=
  let closed := s.conns user_id
  let s2 := cascade_edges user_id { s with conns := fnSet user_id [] s.conns }
  (s2, closed)

/-- Embeds the control flow of `AuthService.logout`
(src/app/services/auth_service.py lines 301-355) restricted to what is
relevant to connection teardown: each token is decoded first and an
invalid token raises before any teardown happens; on valid tokens the
final statement of the method is
`await manager.disconnect_all_for_user(str(user_id))`, so the awaited
teardown completes before `logout` returns.  Token blacklisting touches
only external stores and does not affect the connection state. -/
def logout (access_valid refresh_valid : Bool) (user_id : String)
    (s : GState) : Except String (GState × List Conn) :=
  if access_valid then
    if refresh_valid then Except.ok (disconnect_all_for_user user_id s)
    else Except.error "Invalid refresh token"
  else Except.error "Invalid access token"

/-- Modelled from the spec: `kick_from_room(user, room, reason)` of
section 4.4 — the scope-aware kick of the later-generation manager,
whose defining module is not among the provided sources (the shipped
`kick_user_from_list` has no scope concept).  (a) sends a kicked notice
carrying the room and the reason to every connection of the user;
(b) closes, with code 4003, exactly the connections whose scope equals
the kicked room, leaving `GLOBAL`-scope connections open; (c) removes
the (user, room) subscription edge in both directions. -/
def kick_from_room (user_id room_id reason : String) (s : GState) :
    GState × List (Conn × GMsg) × List (Conn × Nat) :=
  let notices := (s.conns user_id).map
    (fun c => (c, GMsg.kicked room_id reason))
  let closed := ((s.conns user_id).filter
    (fun c => c.scope == Scope.room room_id)).map (fun c => (c, 4003))
  let kept := (s.conns user_id).filter
    (fun c => c.scope != Scope.room room_id)
  ({ conns := fnSet user_id kept s.conns
     room_subs := fnSet room_id
       ((s.room_subs room_id).filter (fun u => u != user_id)) s.room_subs
     user_rooms := fnSet user_id
       ((s.user_rooms user_id).filter (fun r => r != room_id))
       s.user_rooms },
   notices, closed)

/-- Scope filter of the later-generation dispatcher (spec section 4.3):
a connection is eligible for the events of a room when its scope is `GLOBAL`
or exactly that room. -/
def eligible (room_id : String) (c : Conn) : Bool :=
  c.scope == Scope.GLOBAL || c.scope == Scope.room room_id

/-- Modelled from the spec: `broadcast_to_room` of section 4.3, named
`broadcast_event` at its call sites
(src/app/services/shopping_list/base.py line 102,
src/app/services/invitation/base.py line 23) — the defining module is
not among the provided sources.  Takes a snapshot of the subscribers of the room, skips the excluded user, fetches the connections of each remaining subscriber and filters them to those whose scope is
`GLOBAL` or exactly the room; each eligible connection is sent the
message independently with failures collected, and the dead connections
are evicted only after the full pass.  Returns the new state and the
successful (connection, message) deliveries. -/
def broadcast_event (fails : Nat → Bool) (room_id event_type : String)
    (data : Nat) (exclude_user_id : Option String) (s : GState) :
    GState × List (Conn × GMsg) :=
  let msg := GMsg.event_msg event_type data
  let targets := (s.room_subs room_id).filter
    (fun u => exclude_user_id != some u)
  let attempts := targets.flatMap
    (fun u => (s.conns u).filter (eligible room_id))
  let delivered := (attempts.filter (fun c => !(fails c.cid))).map
    (fun c => (c, msg))
  let dead := attempts.filter (fun c => fails c.cid)
  (dead.foldl
    (fun st c =>
      let remaining := (st.conns c.owner).filter (fun c2 => c2 != c)
      let st2 := { st with conns := fnSet c.owner remaining st.conns }
      if remaining.isEmpty then cascade_edges c.owner st2 else st2)
    s, delivered)

/-- Registry with user A holding one GLOBAL connection (id 1) and one
connection dedicated to room L1 (id 2), user B holding one GLOBAL
connection (id 3) and one connection dedicated to room L2 (id 4); A and
B subscribed to room L1. -/
def g0 : GState :=
  { conns := fun u =>
      if u = "A" then [⟨1, "A", Scope.GLOBAL⟩, ⟨2, "A", Scope.room "L1"⟩]
      else if u = "B" then [⟨3, "B", Scope.GLOBAL⟩, ⟨4, "B", Scope.room "L2"⟩]
      else []
    room_subs := fun r => if r = "L1" then ["A", "B"] else []
    user_rooms := fun u =>
      if u = "A" then ["L1"] else if u = "B" then ["L1"] else [] }

end Gen2

namespace Src

theorem mapSet_lookup_self {α : Type} (k : String) (v : α)
    (m : String → Option α) : mapSet k v m k = some v := by
  simp [mapSet]

theorem mapSet_lookup_ne {α : Type} {k k2 : String} (v : α)
    (m : String → Option α) (h : k2 ≠ k) : mapSet k v m k2 = m k2 := by
  simp [mapSet, h]

theorem mapDel_lookup_self {α : Type} (k : String) (m : String → Option α) :
    mapDel k m k = none := by
  simp [mapDel]

theorem mapDel_lookup_ne {α : Type} {k k2 : String} (m : String → Option α)
    (h : k2 ≠ k) : mapDel k m k2 = m k2 := by
  simp [mapDel, h]

theorem setDiscard_not_mem (x : String) (l : List String) :
    x ∉ setDiscard x l := by
  simp [setDiscard, List.mem_filter]

theorem setDiscard_idem (x : String) (l : List String) :
    setDiscard x (setDiscard x l) = setDiscard x l := by
  apply List.filter_eq_self.mpr
  intro a ha
  exact (List.mem_filter.mp ha).2

theorem mapSet_eq_of_lookup {α : Type} {k : String} {v : α}
    {m : String → Option α} (h : m k = some v) : mapSet k v m = m := by
  funext k2
  by_cases hk : k2 = k
  · subst hk; simp [mapSet, h]
  · simp [mapSet, hk]

theorem mapDel_eq_of_lookup {α : Type} {k : String}
    {m : String → Option α} (h : m k = none) : mapDel k m = m := by
  funext k2
  by_cases hk : k2 = k
  · subst hk; simp [mapDel, h]
  · simp [mapDel, hk]

theorem dropUser_lookup_self (u : String)
    (m : String → Option (List String)) (l : String) :
    ∀ subs, dropUserFromList u m l l = some subs → u ∉ subs := by
  intro subs h
  unfold dropUserFromList at h
  cases hm : m l with
  | none =>
    rw [hm] at h
    change m l = some subs at h
    rw [hm] at h
    exact Option.noConfusion h
  | some subs0 =>
    rw [hm] at h
    change (if (setDiscard u subs0).isEmpty then mapDel l m
      else mapSet l (setDiscard u subs0) m) l = some subs at h
    by_cases he : (setDiscard u subs0).isEmpty
    · rw [if_pos he, mapDel_lookup_self] at h
      exact Option.noConfusion h
    · rw [if_neg he, mapSet_lookup_self] at h
      cases h
      exact setDiscard_not_mem u subs0

theorem dropUser_lookup_other (u : String)
    (m : String → Option (List String)) {l l2 : String} (h : l2 ≠ l) :
    dropUserFromList u m l l2 = m l2 := by
  unfold dropUserFromList
  cases hm : m l with
  | none => rfl
  | some subs0 =>
    change (if (setDiscard u subs0).isEmpty then mapDel l m
      else mapSet l (setDiscard u subs0) m) l2 = m l2
    by_cases he : (setDiscard u subs0).isEmpty
    · rw [if_pos he]
      exact mapDel_lookup_ne m h
    · rw [if_neg he]
      exact mapSet_lookup_ne _ m h

theorem dropUser_preserves (u : String)
    (m : String → Option (List String)) (l l2 : String)
    (hp : ∀ subs, m l2 = some subs → u ∉ subs) :
    ∀ subs, dropUserFromList u m l l2 = some subs → u ∉ subs := by
  by_cases hl : l2 = l
  · subst hl; exact dropUser_lookup_self u m l2
  · intro subs h
    rw [dropUser_lookup_other u m hl] at h
    exact hp subs h

theorem foldl_dropUser (u : String) (rooms : List String) :
    ∀ (m : String → Option (List String)) (l : String),
      (l ∈ rooms ∨ ∀ subs, m l = some subs → u ∉ subs) →
      ∀ subs, (rooms.foldl (dropUserFromList u) m) l = some subs →
        u ∉ subs := by
  induction rooms with
  | nil =>
    intro m l h
    rw [List.foldl_nil]
    exact h.resolve_left (List.not_mem_nil l)
  | cons r rs ih =>
    intro m l h
    rw [List.foldl_cons]
    apply ih
    rcases h with hmem | hp
    · rcases List.mem_cons.mp hmem with heq | hrs
      · subst heq
        exact Or.inr (dropUser_lookup_self u m l)
      · exact Or.inl hrs
    · exact Or.inr (dropUser_preserves u m r l hp)

theorem disconnect_active_self (u : String) (s : MState) :
    (disconnect u s).active_connections u = none := by
  unfold disconnect
  cases hm : s.user_subscriptions u with
  | none => simp [hm, mapDel_lookup_self]
  | some lists => simp [hm, mapDel_lookup_self]

theorem disconnect_usubs_self (u : String) (s : MState) :
    (disconnect u s).user_subscriptions u = none := by
  unfold disconnect
  cases hm : s.user_subscriptions u with
  | none => simp [hm]
  | some lists => simp [hm, mapDel_lookup_self]

theorem disconnect_preserves_gone {u : String} (v : String) {s : MState}
    (ha : s.active_connections u = none)
    (hu : s.user_subscriptions u = none) :
    (disconnect v s).active_connections u = none ∧
      (disconnect v s).user_subscriptions u = none := by
  unfold disconnect
  by_cases hv : u = v
  · subst hv
    cases hm : s.user_subscriptions u with
    | none => simp [hm, mapDel_lookup_self, ha]
    | some lists => simp [hm, mapDel_lookup_self]
  · cases hm : s.user_subscriptions v with
    | none => simp [hm, mapDel_lookup_ne _ hv, ha, hu]
    | some lists => simp [hm, mapDel_lookup_ne _ hv, ha, hu]

theorem foldl_disconnect_gone (u : String) (l : List String) :
    ∀ (s : MState),
      (u ∈ l ∨ (s.active_connections u = none ∧
        s.user_subscriptions u = none)) →
      ((l.foldl (fun st v => disconnect v st) s).active_connections u =
        none ∧
       (l.foldl (fun st v => disconnect v st) s).user_subscriptions u =
        none) := by
  induction l with
  | nil =>
    intro s h
    rw [List.foldl_nil]
    exact h.resolve_left (List.not_mem_nil u)
  | cons v vs ih =>
    intro s h
    rw [List.foldl_cons]
    apply ih
    rcases h with hmem | ⟨ha, hu⟩
    · rcases List.mem_cons.mp hmem with heq | hvs
      · subst heq
        exact Or.inr ⟨disconnect_active_self u s, disconnect_usubs_self u s⟩
      · exact Or.inl hvs
    · exact Or.inr (disconnect_preserves_gone v ha hu)

theorem disconnect_lsubs_of_usubs (u : String) (s : MState)
    {rooms : List String} (h : s.user_subscriptions u = some rooms) :
    (disconnect u s).list_subscribers =
      rooms.foldl (dropUserFromList u) s.list_subscribers := by
  unfold disconnect
  simp [h]

theorem dropUser_none {u l : String} {m : String → Option (List String)}
    (h : m l = none) : dropUserFromList u m l = m := by
  unfold dropUserFromList
  rw [h]

theorem dropUser_some_empty {u l : String}
    {m : String → Option (List String)} {subs : List String}
    (h : m l = some subs) (he : (setDiscard u subs).isEmpty = true) :
    dropUserFromList u m l = mapDel l m := by
  unfold dropUserFromList
  rw [h]
  show (if (setDiscard u subs).isEmpty then mapDel l m
    else mapSet l (setDiscard u subs) m) = mapDel l m
  rw [if_pos he]

theorem dropUser_some_nonempty {u l : String}
    {m : String → Option (List String)} {subs : List String}
    (h : m l = some subs) (he : ¬(setDiscard u subs).isEmpty = true) :
    dropUserFromList u m l = mapSet l (setDiscard u subs) m := by
  unfold dropUserFromList
  rw [h]
  show (if (setDiscard u subs).isEmpty then mapDel l m
    else mapSet l (setDiscard u subs) m) = mapSet l (setDiscard u subs) m
  rw [if_neg he]

theorem dropUser_idem (u : String) (m : String → Option (List String))
    (l : String) :
    dropUserFromList u (dropUserFromList u m l) l =
      dropUserFromList u m l := by
  cases hm : m l with
  | none =>
    rw [dropUser_none hm]
    exact dropUser_none hm
  | some subs0 =>
    by_cases he : (setDiscard u subs0).isEmpty = true
    · rw [dropUser_some_empty hm he]
      exact dropUser_none (mapDel_lookup_self l m)
    · rw [dropUser_some_nonempty hm he]
      have h1 : mapSet l (setDiscard u subs0) m l = some (setDiscard u subs0) :=
        mapSet_lookup_self l _ m
      have h2 : ¬(setDiscard u (setDiscard u subs0)).isEmpty = true := by
        rw [setDiscard_idem]
        exact he
      rw [dropUser_some_nonempty h1 h2, setDiscard_idem]
      exact mapSet_eq_of_lookup h1

theorem unsubscribe_active (u l : String) (s : MState) :
    (unsubscribe_from_list u l s).active_connections =
      s.active_connections := rfl

theorem unsubscribe_lsubs (u l : String) (s : MState) :
    (unsubscribe_from_list u l s).list_subscribers =
      dropUserFromList u s.list_subscribers l := rfl

theorem unsubscribe_usubs_none {u : String} (l : String) {s : MState}
    (h : s.user_subscriptions u = none) :
    (unsubscribe_from_list u l s).user_subscriptions =
      s.user_subscriptions := by
  show (match s.user_subscriptions u with
    | none => s.user_subscriptions
    | some rooms =>
      mapSet u (setDiscard l rooms) s.user_subscriptions) =
    s.user_subscriptions
  rw [h]

theorem unsubscribe_usubs_some {u : String} (l : String) {s : MState}
    {rooms : List String} (h : s.user_subscriptions u = some rooms) :
    (unsubscribe_from_list u l s).user_subscriptions =
      mapSet u (setDiscard l rooms) s.user_subscriptions := by
  show (match s.user_subscriptions u with
    | none => s.user_subscriptions
    | some rooms =>
      mapSet u (setDiscard l rooms) s.user_subscriptions) =
    mapSet u (setDiscard l rooms) s.user_subscriptions
  rw [h]

theorem disconnect_of_usubs_none {u : String} {s : MState}
    (h : s.user_subscriptions u = none) :
    disconnect u s =
      { s with
          active_connections := mapDel u s.active_connections } := by
  unfold disconnect
  rw [h]

theorem unsubscribe_idem (u l : String) (s : MState) :
    unsubscribe_from_list u l (unsubscribe_from_list u l s) =
      unsubscribe_from_list u l s := by
  apply MState.ext
  · rw [unsubscribe_active, unsubscribe_active]
  · rw [unsubscribe_lsubs, unsubscribe_lsubs]
    exact dropUser_idem u s.list_subscribers l
  · cases hm : s.user_subscriptions u with
    | none =>
      have h1 : (unsubscribe_from_list u l s).user_subscriptions u = none := by
        rw [unsubscribe_usubs_none l hm]
        exact hm
      rw [unsubscribe_usubs_none l h1, unsubscribe_usubs_none l hm]
    | some rooms =>
      have h0 : (unsubscribe_from_list u l s).user_subscriptions =
          mapSet u (setDiscard l rooms) s.user_subscriptions :=
        unsubscribe_usubs_some l hm
      have h1 : (unsubscribe_from_list u l s).user_subscriptions u =
          some (setDiscard l rooms) := by
        rw [h0]
        exact mapSet_lookup_self u _ s.user_subscriptions
      rw [unsubscribe_usubs_some l h1, h0, setDiscard_idem]
      exact mapSet_eq_of_lookup (mapSet_lookup_self u _ s.user_subscriptions)

theorem disconnect_idem (u : String) (s : MState) :
    disconnect u (disconnect u s) = disconnect u s := by
  rw [disconnect_of_usubs_none (disconnect_usubs_self u s)]
  rw [mapDel_eq_of_lookup (disconnect_active_self u s)]

theorem broadcast_of_none {fails : WS → Bool} {l : String} {msg : Msg}
    {s : MState} (h : s.list_subscribers l = none) :
    broadcast_to_list fails l msg s = (s, []) := by
  unfold broadcast_to_list
  rw [h]

theorem broadcast_of_some {fails : WS → Bool} {l : String} {msg : Msg}
    {s : MState} {subs : List String}
    (h : s.list_subscribers l = some subs) :
    broadcast_to_list fails l msg s =
      ((((subs.filterMap
            (fun u => (s.active_connections u).map (fun w => (u, w)))).filter
          (fun p => fails p.2)).map (fun p => p.1)).foldl
        (fun st u => disconnect u st) s,
       ((subs.filterMap
            (fun u => (s.active_connections u).map (fun w => (u, w)))).filter
          (fun p => !(fails p.2))).map (fun p => (p.1, msg))) := by
  unfold broadcast_to_list
  rw [h]

theorem broadcast_recipient_subscribed {fails : WS → Bool} {l : String}
    {msg : Msg} {s : MState} {u : String} {m : Msg}
    (h : (u, m) ∈ (broadcast_to_list fails l msg s).2) :
    ∃ subs, s.list_subscribers l = some subs ∧ u ∈ subs ∧ m = msg := by
  cases hs : s.list_subscribers l with
  | none =>
    rw [broadcast_of_none hs] at h
    exact absurd h (List.not_mem_nil _)
  | some subs =>
    rw [broadcast_of_some hs] at h
    rcases List.mem_map.mp h with ⟨p, hp, hpe⟩
    injection hpe with h1 h2
    rcases List.mem_filterMap.mp (List.mem_filter.mp hp).1 with ⟨a, ha, hae⟩
    cases hac : s.active_connections a with
    | none =>
      rw [hac] at hae
      exact absurd hae (by simp)
    | some w2 =>
      rw [hac] at hae
      have hpa : p = (a, w2) := by
        simpa using hae.symm
      refine ⟨subs, rfl, ?_, h2.symm⟩
      rw [← h1, hpa]
      exact ha

theorem unsubscribe_lsubs_self (u l : String) (s : MState) :
    ∀ subs2, (unsubscribe_from_list u l s).list_subscribers l = some subs2 →
      u ∉ subs2 := by
  rw [unsubscribe_lsubs]
  exact dropUser_lookup_self u s.list_subscribers l

theorem kick_of_connected_ok {fails : WS → Bool} {u : String}
    (l reason : String) {s : MState} {w : WS}
    (hw : s.active_connections u = some w) (hok : fails w = false) :
    kick_user_from_list fails u l reason s =
      (unsubscribe_from_list u l s, [(u, Msg.kicked l reason)]) := by
  unfold kick_user_from_list send_to_user
  rw [hw]
  simp [hok]

theorem handle_redis_member_removed (fails : WS → Bool)
    (list_id uid : String) (s : MState) :
    handle_redis_pmessage fails list_id (REvent.member_removed uid) s =
      ((broadcast_to_list fails list_id
          (Msg.event_wrap (REvent.member_removed uid))
          (kick_user_from_list fails uid list_id "removed_by_owner" s).1).1,
       (kick_user_from_list fails uid list_id "removed_by_owner" s).2 ++
         (broadcast_to_list fails list_id
           (Msg.event_wrap (REvent.member_removed uid))
           (kick_user_from_list fails uid list_id
             "removed_by_owner" s).1).2) := rfl

end Src

namespace Gen2

theorem fnSet_self {α : Type} (k : String) (v : α) (m : String → α) :
    fnSet k v m k = v := by
  simp [fnSet]

theorem fnSet_ne {α : Type} {k k2 : String} (v : α) (m : String → α)
    (h : k2 ≠ k) : fnSet k v m k2 = m k2 := by
  simp [fnSet, h]

theorem broadcast_event_sends (fails : Nat → Bool)
    (room_id event_type : String) (data : Nat) (exclude : Option String)
    (s : GState) :
    (broadcast_event fails room_id event_type data exclude s).2 =
      ((((s.room_subs room_id).filter
            (fun v => exclude != some v)).flatMap
          (fun v => (s.conns v).filter (eligible room_id))).filter
        (fun c => !(fails c.cid))).map
        (fun c => (c, GMsg.event_msg event_type data)) := rfl

end Gen2

/-- C1.  The spec claims that in every reachable manager state a user
with zero live connections has no subscription edge in either direction.
The code violates this: `connect` on an already connected user resets
`user_subscriptions[user]` to the empty set but does not remove the user
from `list_subscribers`, so after the sequence connect(A, socket 1);
subscribe_to_list(A, L1); connect(A, socket 2); disconnect(A) the user A
has no active connection yet `list_subscribers` still records A as a
subscriber of L1.  This contradicts the cascade the code itself attempts
in `disconnect` and leaves a ghost subscriber that
`src/app/services/notification_service.py` (line 162) then treats as
subscribed. -/
theorem C1_zero_connection_edge_leak :
    Src.c1_final.active_connections "A" = none ∧
    Src.c1_final.user_subscriptions "A" = none ∧
    Src.c1_final.list_subscribers "L1" = some ["A"] := by
  decide

/-- C4.  A failed membership (authorization) check makes
`subscribe_to_list` return false without any state mutation: the state
returned is exactly the input state, both subscription maps included. -/
theorem C4_failed_subscribe_no_mutation
    (membership : String → String → Bool) (u l : String) (s : Src.MState)
    (h : membership u l = false) :
    Src.subscribe_to_list membership u l s = (s, false) := by
  simp [Src.subscribe_to_list, h]

/-- Witness for C4 at a concrete input: the always-deny membership check
on the state with user A connected. -/
theorem C4_failed_subscribe_no_mutation_witness :
    Src.subscribe_to_list (fun _ _ => false) "A" "L1" Src.stateA =
      (Src.stateA, false) :=
  C4_failed_subscribe_no_mutation (fun _ _ => false) "A" "L1" Src.stateA rfl

/-- C5 counterexample.  The claim states that accepting a new connection
for a user who already has one leaves the existing connection open and
registered.  In the code `connect` closes the existing socket with code
4001 and replaces it: from the state with user A on socket 1, a second
`connect` for A closes socket 1 and the registry afterwards holds only
socket 2. -/
theorem C5_second_connect_closes_existing :
    (Src.connect "A" ⟨2⟩ Src.stateA).2 ≠ [] ∧
    (Src.connect "A" ⟨2⟩ Src.stateA).2 = [(⟨1⟩, 4001)] ∧
    (Src.connect "A" ⟨2⟩ Src.stateA).1.active_connections "A" = some ⟨2⟩ := by
  decide

/-- C5 amended.  The registry holds at most one connection per user:
accepting a new connection for an already connected user closes the
existing socket with code 4001 and replaces it (also resetting the
subscription record of the user), and the loss of the single
connection cascades removal of all their recorded subscriptions — the
user is removed from the subscriber set of every list in their
`user_subscriptions` record, and both registry entries for the user are
gone afterwards. -/
theorem C5_single_connection_replacement (s : Src.MState) (u l : String)
    (w old : Src.WS) (rooms subs2 : List String)
    (h1 : s.active_connections u = some old) :
    (Src.connect u w s).2 = [(old, 4001)] ∧
    (Src.connect u w s).1.active_connections u = some w ∧
    (Src.connect u w s).1.user_subscriptions u = some [] ∧
    (Src.disconnect u s).active_connections u = none ∧
    (Src.disconnect u s).user_subscriptions u = none ∧
    (s.user_subscriptions u = some rooms → l ∈ rooms →
      (Src.disconnect u s).list_subscribers l = some subs2 → u ∉ subs2) := by
  refine ⟨?_, ?_, ?_, ?_, ?_, ?_⟩
  · simp [Src.connect, h1]
  · simp [Src.connect, Src.mapSet_lookup_self]
  · simp [Src.connect, Src.mapSet_lookup_self]
  · exact Src.disconnect_active_self u s
  · exact Src.disconnect_usubs_self u s
  · intro h2 h3 h4
    rw [Src.disconnect_lsubs_of_usubs u s h2] at h4
    exact Src.foldl_dropUser u rooms s.list_subscribers l (Or.inl h3) subs2 h4

/-- Witness for C5 amended: user A connected on socket 1 and subscribed
to L1; a reconnect replaces the socket, and a disconnect removes A from
the subscriber set of L1. -/
theorem C5_single_connection_replacement_witness :
    (Src.connect "A" ⟨3⟩ Src.stateAB).2 = [(⟨1⟩, 4001)] ∧
    (Src.connect "A" ⟨3⟩ Src.stateAB).1.active_connections "A" = some ⟨3⟩ ∧
    (Src.connect "A" ⟨3⟩ Src.stateAB).1.user_subscriptions "A" = some [] ∧
    (Src.disconnect "A" Src.stateAB).active_connections "A" = none ∧
    (Src.disconnect "A" Src.stateAB).user_subscriptions "A" = none ∧
    (Src.stateAB.user_subscriptions "A" = some ["L1"] → "L1" ∈ ["L1"] →
      (Src.disconnect "A" Src.stateAB).list_subscribers "L1" = some ["B"] →
      "A" ∉ ["B"]) :=
  C5_single_connection_replacement Src.stateAB "A" "L1" ⟨3⟩ ⟨1⟩ ["L1"] ["B"]
    (by decide)

/-- C7.  Idempotence: a second `unsubscribe_from_list` on the same
(user, list) and a second `disconnect` of the same user are exact
no-ops — the state after the second call equals the state after the
first — and, the embedded operations being total functions whose only
removal primitives are the guarded `discard` and `if k in d: del d[k]`
patterns of the source, the second call raises no error. -/
theorem C7_unsubscribe_disconnect_idempotent (s : Src.MState)
    (u l : String) :
    Src.unsubscribe_from_list u l (Src.unsubscribe_from_list u l s) =
      Src.unsubscribe_from_list u l s ∧
    Src.disconnect u (Src.disconnect u s) = Src.disconnect u s :=
  ⟨Src.unsubscribe_idem u l s, Src.disconnect_idem u s⟩

/-- C9.  Delivery is best-effort: `broadcast_to_list` and `send_to_user`
catch every send exception (the embedded operations are total for every
failure pattern `fails`), a subscriber with a healthy connection is
delivered the message even when connections of other subscribers fail,
a subscriber whose connection fails is marked dead and evicted with the
cascade cleanup of `disconnect` only after the full delivery pass, and
`send_to_user` returns false on a failed send after evicting the
connection instead of raising. -/
theorem C9_best_effort_delivery (fails : Src.WS → Bool) (l : String)
    (msg : Src.Msg) (s : Src.MState) (subs : List String) (u : String)
    (w : Src.WS) (hsubs : s.list_subscribers l = some subs) (hu : u ∈ subs)
    (hw : s.active_connections u = some w) :
    (fails w = false →
      (u, msg) ∈ (Src.broadcast_to_list fails l msg s).2) ∧
    (fails w = true →
      (Src.broadcast_to_list fails l msg s).1.active_connections u = none ∧
      (Src.broadcast_to_list fails l msg s).1.user_subscriptions u = none) ∧
    Src.send_to_user fails u msg s =
      (if fails w then (Src.disconnect u s, false, [])
       else (s, true, [(u, msg)])) := by
  have hattempt : (u, w) ∈ subs.filterMap
      (fun v => (s.active_connections v).map (fun w2 => (v, w2))) :=
    List.mem_filterMap.mpr ⟨u, hu, by rw [hw]; rfl⟩
  refine ⟨?_, ?_, ?_⟩
  · intro hf
    rw [Src.broadcast_of_some hsubs]
    exact List.mem_map.mpr
      ⟨(u, w), List.mem_filter.mpr ⟨hattempt, by simp [hf]⟩, rfl⟩
  · intro hf
    rw [Src.broadcast_of_some hsubs]
    apply Src.foldl_disconnect_gone
    exact Or.inl (List.mem_map.mpr
      ⟨(u, w), List.mem_filter.mpr ⟨hattempt, by simp [hf]⟩, rfl⟩)
  · unfold Src.send_to_user
    rw [hw]

/-- Witness for C9: users A (socket 1) and B (socket 2) subscribed to
L1; socket 2 fails.  A still receives the broadcast, B is evicted with
cascade, and `send_to_user` to B returns false after eviction. -/
theorem C9_best_effort_delivery_witness :
    ("A", Src.Msg.custom "m") ∈
      (Src.broadcast_to_list (fun w => w.wid == 2) "L1"
        (Src.Msg.custom "m") Src.stateAB).2 ∧
    (Src.broadcast_to_list (fun w => w.wid == 2) "L1" (Src.Msg.custom "m")
      Src.stateAB).1.active_connections "B" = none ∧
    (Src.broadcast_to_list (fun w => w.wid == 2) "L1" (Src.Msg.custom "m")
      Src.stateAB).1.user_subscriptions "B" = none ∧
    Src.send_to_user (fun w => w.wid == 2) "B" (Src.Msg.custom "m")
      Src.stateAB = (Src.disconnect "B" Src.stateAB, false, []) := by
  have hA := C9_best_effort_delivery (fun w => w.wid == 2) "L1"
    (Src.Msg.custom "m") Src.stateAB ["B", "A"] "A" ⟨1⟩ (by decide)
    (by decide) (by decide)
  have hB := C9_best_effort_delivery (fun w => w.wid == 2) "L1"
    (Src.Msg.custom "m") Src.stateAB ["B", "A"] "B" ⟨2⟩ (by decide)
    (by decide) (by decide)
  exact ⟨hA.1 (by decide), (hB.2.1 (by decide)).1, (hB.2.1 (by decide)).2,
    hB.2.2⟩

/-- C10.  When the Redis listener processes a `member_removed` event for
list L naming user U (with U holding a healthy connection), the kicked
frame to U comes first in the send sequence, the (U, L) subscription
edge is removed before the event broadcast, and consequently U never
receives the `member_removed` event broadcast: every message delivered
to U during the processing is the kicked frame. -/
theorem C10_member_removed_kick_ordering (fails : Src.WS → Bool)
    (L U : String) (s : Src.MState) (w : Src.WS)
    (hw : s.active_connections U = some w) (hok : fails w = false) :
    (Src.handle_redis_pmessage fails L
        (Src.REvent.member_removed U) s).2.head? =
      some (U, Src.Msg.kicked L "removed_by_owner") ∧
    ∀ m, (U, m) ∈
        (Src.handle_redis_pmessage fails L
          (Src.REvent.member_removed U) s).2 →
      m = Src.Msg.kicked L "removed_by_owner" := by
  have hk := Src.kick_of_connected_ok L "removed_by_owner" hw hok
  have hsends : (Src.handle_redis_pmessage fails L
      (Src.REvent.member_removed U) s).2 =
      (U, Src.Msg.kicked L "removed_by_owner") ::
        (Src.broadcast_to_list fails L
          (Src.Msg.event_wrap (Src.REvent.member_removed U))
          (Src.unsubscribe_from_list U L s)).2 := by
    rw [Src.handle_redis_member_removed, hk]
    rfl
  constructor
  · rw [hsends]
    rfl
  · intro m hm
    rw [hsends] at hm
    rcases List.mem_cons.mp hm with he | hb
    · exact congrArg Prod.snd he
    · exfalso
      rcases Src.broadcast_recipient_subscribed hb with ⟨subs2, hs2, hU2, _⟩
      exact Src.unsubscribe_lsubs_self U L s subs2 hs2 hU2

/-- Witness for C10: users A and B subscribed to L1, both healthy; the
listener processes member_removed for A. -/
theorem C10_member_removed_kick_ordering_witness :
    (Src.handle_redis_pmessage (fun _ => false) "L1"
        (Src.REvent.member_removed "A") Src.stateAB).2.head? =
      some ("A", Src.Msg.kicked "L1" "removed_by_owner") ∧
    ∀ m, ("A", m) ∈
        (Src.handle_redis_pmessage (fun _ => false) "L1"
          (Src.REvent.member_removed "A") Src.stateAB).2 →
      m = Src.Msg.kicked "L1" "removed_by_owner" :=
  C10_member_removed_kick_ordering (fun _ => false) "L1" "A" Src.stateAB
    ⟨1⟩ (by decide) (by decide)

/-- C8.  Every malformed inbound frame (invalid JSON, missing or empty
required payload field, invalid UUID format) and every frame with an
unknown type tag makes the handler send exactly one structured error
frame to the originating connection and leave the manager state — the
connection registry included, so the connection is not closed — exactly
unchanged. -/
theorem C8_malformed_soft_error (membership : String → String → Bool)
    (is_valid_uuid : String → Bool) (user_id : String) (inb : Src.Inbound)
    (s : Src.MState)
    (h : Src.malformed_or_unknown is_valid_uuid inb = true) :
    ∃ emsg, Src.handle_message membership is_valid_uuid user_id inb s =
      (s, [Src.Outbound.error_frame emsg]) := by
  cases inb with
  | bad_json => exact ⟨"Invalid JSON message", rfl⟩
  | frame t pl =>
    simp only [Src.malformed_or_unknown] at h
    simp only [Src.handle_message]
    by_cases h1 : t = some "subscribe"
    · rw [if_pos h1] at h ⊢
      cases pl with
      | none => exact ⟨_, rfl⟩
      | some lid =>
        by_cases h2 : lid = ""
        · subst h2
          exact ⟨_, rfl⟩
        · have h3 : is_valid_uuid lid = false := by
            rcases Bool.or_eq_true_iff.mp h with hc | hc
            · exact absurd (by simpa using hc) h2
            · simpa using hc
          exact ⟨"Invalid list_id format", by simp [h2, h3]⟩
    · rw [if_neg h1] at h ⊢
      by_cases h2 : t = some "unsubscribe"
      · rw [if_pos h2] at h ⊢
        cases pl with
        | none => exact ⟨_, rfl⟩
        | some lid =>
          have h3 : lid = "" := by simpa using h
          subst h3
          exact ⟨_, rfl⟩
      · rw [if_neg h2] at h ⊢
        by_cases h3 : t = some "ping"
        · rw [if_pos h3] at h
          exact absurd h (by simp)
        · rw [if_neg h3]
          exact ⟨_, rfl⟩

/-- Witness for C8: a frame with the unknown type tag "frobnicate" on
the state with user A connected. -/
theorem C8_malformed_soft_error_witness :
    ∃ emsg, Src.handle_message (fun _ _ => true) (fun _ => true) "A"
        (Src.Inbound.frame (some "frobnicate") none) Src.stateA =
      (Src.stateA, [Src.Outbound.error_frame emsg]) :=
  C8_malformed_soft_error (fun _ _ => true) (fun _ => true) "A"
    (Src.Inbound.frame (some "frobnicate") none) Src.stateA (by decide)

/-- C2.  On valid tokens the logout path ends by awaiting
`disconnect_all_for_user`, which closes every connection owned by the
user across all scopes — the closed list is exactly the full registry entry of the user, whatever the scopes of its connections — and the state
logout returns already reflects the completed teardown: the registry
holds no connection for the user. -/
theorem C2_logout_disconnect_all (a r : Bool) (u : String)
    (s : Gen2.GState) (ha : a = true) (hr : r = true) :
    Gen2.logout a r u s =
      Except.ok (Gen2.disconnect_all_for_user u s) ∧
    (Gen2.disconnect_all_for_user u s).2 = s.conns u ∧
    (Gen2.disconnect_all_for_user u s).1.conns u = [] := by
  subst ha
  subst hr
  refine ⟨rfl, rfl, ?_⟩
  show (Gen2.cascade_edges u
    { s with conns := Gen2.fnSet u [] s.conns }).conns u = []
  show Gen2.fnSet u [] s.conns u = []
  exact Gen2.fnSet_self u [] s.conns

/-- Witness for C2: logout of user A on the two-user registry. -/
theorem C2_logout_disconnect_all_witness :
    Gen2.logout true true "A" Gen2.g0 =
      Except.ok (Gen2.disconnect_all_for_user "A" Gen2.g0) ∧
    (Gen2.disconnect_all_for_user "A" Gen2.g0).2 = Gen2.g0.conns "A" ∧
    (Gen2.disconnect_all_for_user "A" Gen2.g0).1.conns "A" = [] :=
  C2_logout_disconnect_all true true "A" Gen2.g0 rfl rfl

/-- C3.  `kick_from_room` (a) sends a kicked notice carrying the room
and the reason to every connection of the user, (b) closes exactly the
connections whose scope equals the kicked room — every closed connection
has that scope (hence none is GLOBAL) and is closed with 4003 — and
(c) removes the (user, room) subscription edge, so the subscriber set of the room no longer contains the user. -/
theorem C3_kick_scope_discipline (s : Gen2.GState)
    (u room reason : String) :
    (Gen2.kick_from_room u room reason s).2.1 =
      (s.conns u).map (fun c => (c, Gen2.GMsg.kicked room reason)) ∧
    (Gen2.kick_from_room u room reason s).2.2 =
      ((s.conns u).filter
        (fun c => c.scope == Gen2.Scope.room room)).map
        (fun c => (c, 4003)) ∧
    (∀ c n, (c, n) ∈ (Gen2.kick_from_room u room reason s).2.2 →
      c.scope = Gen2.Scope.room room ∧ c.scope ≠ Gen2.Scope.GLOBAL ∧
      n = 4003) ∧
    u ∉ (Gen2.kick_from_room u room reason s).1.room_subs room := by
  refine ⟨rfl, rfl, ?_, ?_⟩
  · intro c n hmem
    rcases List.mem_map.mp hmem with ⟨c2, hc2, he⟩
    have hc : c2 = c := congrArg Prod.fst he
    have hn : n = 4003 := (congrArg Prod.snd he).symm
    subst hc
    have hs : c2.scope = Gen2.Scope.room room := by
      simpa using (List.mem_filter.mp hc2).2
    exact ⟨hs, by simp [hs], hn⟩
  · show u ∉ Gen2.fnSet room
      ((s.room_subs room).filter (fun v => v != u)) s.room_subs room
    rw [Gen2.fnSet_self]
    intro hmem
    simpa using (List.mem_filter.mp hmem).2

/-- Witness for C3: kicking A from L1 on the registry where A holds a
GLOBAL connection (id 1) and an L1-scoped connection (id 2): exactly the
L1-scoped connection is closed, with 4003, and A leaves the subscriber
set of L1. -/
theorem C3_kick_scope_discipline_witness :
    (Gen2.kick_from_room "A" "L1" "removed" Gen2.g0).2.2 =
      [(⟨2, "A", Gen2.Scope.room "L1"⟩, 4003)] ∧
    (⟨2, "A", Gen2.Scope.room "L1"⟩ : Gen2.Conn).scope ≠
      Gen2.Scope.GLOBAL ∧
    "A" ∉ (Gen2.kick_from_room "A" "L1" "removed" Gen2.g0).1.room_subs
      "L1" := by
  have h := C3_kick_scope_discipline Gen2.g0 "A" "L1" "removed"
  exact ⟨by decide,
    (h.2.2.1 ⟨2, "A", Gen2.Scope.room "L1"⟩ 4003 (by decide)).2.1,
    h.2.2.2⟩

/-- C6.  `broadcast_event` delivers the event message to the connections
of every subscriber of the room except the excluded user, and only to
connections whose scope is GLOBAL or exactly the room: every healthy
eligible connection of a non-excluded subscriber receives the message,
and every delivered connection is eligible, owned by a subscriber, and
not owned by the excluded user (so the excluded user receives nothing
and a connection scoped to a different room receives nothing).  The
registry is assumed owner-consistent: each connection listed under a
user is owned by that user. -/
theorem C6_broadcast_filtering (fails : Nat → Bool)
    (room etype : String) (data : Nat) (exclude : Option String)
    (s : Gen2.GState) (hwf : ∀ v c, c ∈ s.conns v → c.owner = v) :
    (∀ v c, v ∈ s.room_subs room → exclude ≠ some v → c ∈ s.conns v →
      Gen2.eligible room c = true → fails c.cid = false →
      (c, Gen2.GMsg.event_msg etype data) ∈
        (Gen2.broadcast_event fails room etype data exclude s).2) ∧
    (∀ c m,
      (c, m) ∈ (Gen2.broadcast_event fails room etype data exclude s).2 →
      m = Gen2.GMsg.event_msg etype data ∧
      Gen2.eligible room c = true ∧
      c.owner ∈ s.room_subs room ∧ exclude ≠ some c.owner) := by
  constructor
  · intro v c hv hex hc helig hf
    rw [Gen2.broadcast_event_sends]
    apply List.mem_map.mpr
    refine ⟨c, List.mem_filter.mpr ⟨?_, by simp [hf]⟩, rfl⟩
    apply List.mem_flatMap.mpr
    refine ⟨v, List.mem_filter.mpr ⟨hv, by simpa using hex⟩, ?_⟩
    exact List.mem_filter.mpr ⟨hc, helig⟩
  · intro c m hmem
    rw [Gen2.broadcast_event_sends] at hmem
    rcases List.mem_map.mp hmem with ⟨c2, hc2, he⟩
    have hcc : c2 = c := congrArg Prod.fst he
    have hm : m = Gen2.GMsg.event_msg etype data :=
      (congrArg Prod.snd he).symm
    subst hcc
    rcases List.mem_filter.mp hc2 with ⟨hc3, _⟩
    rcases List.mem_flatMap.mp hc3 with ⟨v, hv, hcv⟩
    rcases List.mem_filter.mp hcv with ⟨hcin, helig⟩
    rcases List.mem_filter.mp hv with ⟨hvsub, hvex⟩
    have hov : c2.owner = v := hwf v c2 hcin
    refine ⟨hm, helig, ?_, ?_⟩
    · rw [hov]
      exact hvsub
    · rw [hov]
      simpa using hvex

/-- Witness for C6: broadcast to L1 excluding A on the two-user
registry; the GLOBAL connection of B (id 3) receives the message. -/
theorem C6_broadcast_filtering_witness :
    (⟨3, "B", Gen2.Scope.GLOBAL⟩, Gen2.GMsg.event_msg "item_added" 7) ∈
      (Gen2.broadcast_event (fun _ => false) "L1" "item_added" 7
        (some "A") Gen2.g0).2 := by
  have hwf : ∀ v c, c ∈ Gen2.g0.conns v → c.owner = v := by
    intro v c hc
    by_cases h1 : v = "A"
    · subst h1
      simp [Gen2.g0] at hc
      rcases hc with h | h <;> subst h <;> rfl
    · by_cases h2 : v = "B"
      · subst h2
        simp [Gen2.g0] at hc
        rcases hc with h | h <;> subst h <;> rfl
      · simp [Gen2.g0, h1, h2] at hc
  have h := C6_broadcast_filtering (fun _ => false) "L1" "item_added" 7
    (some "A") Gen2.g0 hwf
  exact h.1 "B" ⟨3, "B", Gen2.Scope.GLOBAL⟩ (by decide) (by decide)
    (by decide) (by decide) rfl
